import Mathlib

/-!
Shallow embedding of `sublime_jedi/daemon.py` (SublimeJEDI plugin).

The file models the request-dispatch layer of the plugin:

* `Daemon` and `Daemon.request`: routing between the auxiliary
  definition-finder (`pydef.goto_definition`) and the primary analysis
  engine (`JediFacade`), exception handling, and the `auto_path` search-path
  tweak;
* `_get_daemon` / `_get_requestor`: the per-window lazily initialized
  dispatcher and single-worker thread pool (`DAEMONS` / `REQUESTORS`);
* `ask_daemon_with_timeout`: the future/timeout/cancel logic;
* `ask_daemon` / `run_in_active_view`: asynchronous dispatch and result
  marshaling back to the active view of the originating window.

External collaborators (jedi environments, `pydef.goto_definition`,
`JediFacade.get`, `os.path`, the sublime API) are modelled as oracles
supplied through the `Backends`, `EnvOracle` and `View` records.  Python
truthiness is modelled explicitly: `Option.none` stands for a falsy
settings value (`None` / empty dict), `Answer.pyNone` for a `None` answer.
Calls to the two backends are recorded in an event trace so that routing
claims can be stated.
-/

namespace SublimeJedi

/-- The `pydef` settings dict (`self.pydef`); `none` at the `Daemon` level
models a falsy value (absent or empty).  Each field models
`self.pydef.get('...')` coerced to truthiness. -/
structure PydefConf where
  log : Bool
  auto_path : Bool
  skip_jedi : Bool
deriving Repr, DecidableEq

/-- A truthy result of `pydef.goto_definition`: an object with `.filename`
and `.row` attributes (`row` is 0-based in pydef). -/
structure GotoResult where
  filename : String
  row : Int
deriving Repr, DecidableEq

/-- Python values that can flow out of `Daemon.request`:
`pyNone` is `None`; `gotoList` is the list `[(filename, row, col)]` built
from a pydef result; `facadeValue` is an otherwise unconstrained value
returned by `JediFacade.get` (its Python truthiness is carried in the
`truthy` field, its identity in `tag`). -/
inductive Answer where
  | pyNone : Answer
  | gotoList : List (String × Int × Int) → Answer
  | facadeValue : Bool → Nat → Answer
deriving Repr, DecidableEq

/-- Python truthiness of an `Answer` (`if not answer:`). -/
def Answer.isTruthy : Answer → Bool
  | .pyNone => false
  | .gotoList es => !es.isEmpty
  | .facadeValue t _ => t

/-- The per-window `Daemon` ("Jedi Requester"): the fields assigned by
`Daemon.__init__`.  `envTag` identifies the jedi environment object
(`self.env`), which is otherwise opaque to this layer. -/
structure Daemon where
  envTag : Nat
  sys_path : List String
  complete_funcargs : String
  pydef : Option PydefConf
deriving Repr, DecidableEq

/-- The keyword arguments passed to the `JediFacade` constructor in
`Daemon.request`. -/
structure FacadeArgs where
  envTag : Nat
  complete_funcargs : String
  source : String
  line : Int
  column : Int
  filename : String
  sys_path : List String
deriving Repr, DecidableEq

/-- Observable backend interactions of one `Daemon.request` call:
a call to `pydef.goto_definition` (with its arguments), the traceback
printed when that call raises, and a call to
`JediFacade(...).get(request_type, request_kwargs)`. -/
inductive Event where
  | pydefCall : List String → String → Int → Int → String → Event
  | excPrinted : Event
  | facadeCall : FacadeArgs → String → List (String × String) → Event
deriving Repr, DecidableEq

/-- Oracles for the code's external collaborators: `os.path.dirname`,
the `os.path.isfile(os.path.join(curdir, '__init__.py'))` test,
`pydef.goto_definition` (which may raise, `Except.error`, or return a
falsy `none` or a truthy result), and `JediFacade(...).get(...)`. -/
structure Backends where
  dirname : String → String
  hasInitFile : String → Bool
  pydefGoto : List String → String → Int → Int → String → Except String (Option GotoResult)
  facadeGet : FacadeArgs → String → List (String × String) → Answer

/-- The search path computed at the top of `Daemon.request`: `self.sys_path`,
with the file's directory prepended when `self.pydef` is truthy, its
`auto_path` option is set, the directory holds no `__init__.py` and is not
already in the path. -/
def Daemon.requestPath (self : Daemon) (b : Backends) (filename : String) :
    List String :=
  if (match self.pydef with | some p => p.auto_path | none => false) then
    let curdir := b.dirname filename
    if !b.hasInitFile curdir && !self.sys_path.contains curdir then
      curdir :: self.sys_path
    else
      self.sys_path
  else
    self.sys_path

/-- `Daemon.request`: returns the answer, the trace of backend events, and
the daemon as left behind by the call (the Python method assigns no
attribute of `self`, so the embedding threads it through explicitly). -/
def Daemon.request (self : Daemon) (b : Backends) (request_type : String)
    (request_kwargs : List (String × String)) (filename source : String)
    (line column : Int) : Answer × List Event × Daemon :=
  let path := self.requestPath b filename
  let runFacade : List Event → Answer × List Event × Daemon := fun evs =>
    let args : FacadeArgs :=
      { envTag := self.envTag
        complete_funcargs := self.complete_funcargs
        source := source
        line := line + 1
        column := column
        filename := filename
        sys_path := path }
    (b.facadeGet args request_type request_kwargs,
     evs ++ [Event.facadeCall args request_type request_kwargs], self)
  match self.pydef with
  | some p =>
    if request_type == "goto" || request_type == "pydef_goto" then
      let pres := b.pydefGoto path filename line column source
      let answer : Answer :=
        match pres with
        | .ok (some r) => .gotoList [(r.filename, r.row + 1, 0)]
        | _ => .pyNone
      let evs : List Event :=
        match pres with
        | .error _ => [.pydefCall path filename line column source, .excPrinted]
        | _ => [.pydefCall path filename line column source]
      if p.skip_jedi || request_type == "pydef_goto" then
        (answer, evs, self)
      else if !answer.isTruthy then
        runFacade evs
      else
        (answer, evs, self)
    else
      runFacade []
  | none => runFacade []

/-- The settings a view resolves (`get_settings(view)`), restricted to the
keys `Daemon.__init__` reads.  `Option.none` models a falsy value. -/
structure Settings where
  python_virtualenv : Option String
  python_interpreter : Option String
  extra_packages : List String
  complete_funcargs : String
  pydef : Option PydefConf
deriving Repr, DecidableEq

/-- Python truthiness of an optional string setting (`None` and `''` are
falsy). -/
def truthyStr : Option String → Bool
  | some s => !s.isEmpty
  | none => false

/-- Oracle for the jedi environment machinery used by `Daemon.__init__`:
which environment object each branch yields, and what
`env.get_sys_path()` returns on it. -/
structure EnvOracle where
  createEnvironment : String → Nat
  interpreterEnvironment : String → Nat
  defaultEnvironment : Nat
  sysPathOf : Nat → List String

/-- `Daemon.__init__(settings)`: pick the environment, take its
`get_sys_path()`, and prepend `extra_packages` when truthy. -/
def Daemon.init (eo : EnvOracle) (settings : Settings) : Daemon :=
  let env : Nat :=
    if truthyStr settings.python_virtualenv then
      eo.createEnvironment (settings.python_virtualenv.getD "")
    else if truthyStr settings.python_interpreter then
      eo.interpreterEnvironment (settings.python_interpreter.getD "")
    else
      eo.defaultEnvironment
  let base := eo.sysPathOf env
  { envTag := env
    sys_path := if settings.extra_packages.isEmpty then base
                else settings.extra_packages ++ base
    complete_funcargs := settings.complete_funcargs
    pydef := settings.pydef }

/-- A `ThreadPoolExecutor` stored in `REQUESTORS`: its `max_workers`
argument and an identity (`rid`) distinguishing separately constructed
pools. -/
structure Requestor where
  rid : Nat
  max_workers : Nat
deriving Repr, DecidableEq

/-- The module-level mutable state of `daemon.py`: the `DAEMONS` and
`REQUESTORS` dicts (keyed by window id) and a counter supplying fresh
identities for newly constructed thread pools. -/
structure ModState where
  daemons : List (Nat × Daemon)
  requestors : List (Nat × Requestor)
  nextRid : Nat
deriving Repr, DecidableEq

/-- A sublime view, restricted to what `daemon.py` reads from it:
the id of its window, `file_name()`, the full buffer text, the start of
the first selection, `rowcol`, and the settings `get_settings(view)`
resolves for it. -/
structure View where
  windowId : Nat
  file_name : Option String
  source : String
  selBegin : Nat
  rowcol : Nat → Int × Int
  settings : Settings

/-- `_get_daemon(view)` keyed by the view's window id.  Returns the
daemon, whether a new `Daemon` was constructed by this call, and the
updated module state. -/
def getDaemon (eo : EnvOracle) (wid : Nat) (settings : Settings)
    (s : ModState) : Daemon × Bool × ModState :=
  match s.daemons.lookup wid with
  | some d => (d, false, s)
  | none =>
    let d := Daemon.init eo settings
    (d, true, { s with daemons := (wid, d) :: s.daemons })

/-- `_get_requestor(view)` keyed by the view's window id.  Returns the
pool, whether a new `ThreadPoolExecutor(max_workers=1)` was constructed
by this call, and the updated module state. -/
def getRequestor (wid : Nat) (s : ModState) : Requestor × Bool × ModState :=
  match s.requestors.lookup wid with
  | some r => (r, false, s)
  | none =>
    let r : Requestor := { rid := s.nextRid, max_workers := 1 }
    (r, true,
     { s with requestors := (wid, r) :: s.requestors, nextRid := s.nextRid + 1 })

/-- `_prepare_request_data(view, location)`: resolve the location
(defaulting to the first selection), convert it to row/column, and read
filename (or `''`) and the whole buffer. -/
def prepareRequestData (v : View) (location : Option Nat) :
    String × String × Int × Int :=
  let loc := match location with | some l => l | none => v.selBegin
  let rc := v.rowcol loc
  ((match v.file_name with | some f => f | none => ""), v.source, rc.1, rc.2)

/-- `ask_daemon_sync(view, ask_type, ask_kwargs, location)`: fetch the
per-window daemon and forward the request.  Returns the answer plus the
backend event trace, and the updated module state. -/
def askDaemonSync (eo : EnvOracle) (b : Backends) (v : View)
    (ask_type : String) (ask_kwargs : Option (List (String × String)))
    (location : Option Nat) (s : ModState) :
    (Answer × List Event) × ModState :=
  let g := getDaemon eo v.windowId v.settings s
  let data := prepareRequestData v location
  let res := g.1.request b ask_type (ask_kwargs.getD [])
    data.1 data.2.1 data.2.2.1 data.2.2.2
  ((res.1, res.2.1), g.2.2)

/-- A failure propagated out of `request.result(timeout=...)`:
`concurrent.futures.TimeoutError`, or any other exception raised by the
submitted target. -/
inductive Failure where
  | timeout : Failure
  | other : String → Failure
deriving Repr, DecidableEq

/-- `future.result(timeout)` for a target that takes `duration` time units
and finishes with `res`: within the timeout it yields the target's result
(re-raising a target exception as `Failure.other`); past the timeout it
raises `Failure.timeout`. -/
def futureResult (timeout duration : Nat) (res : Except String α) :
    Except Failure α :=
  if duration ≤ timeout then
    match res with
    | .ok a => .ok a
    | .error m => .error (.other m)
  else
    .error .timeout

/-- The `try/except TimeoutError` tail of `ask_daemon_with_timeout`:
the outcome of `request.result(timeout=timeout)`, re-raised as is, and
whether `request.cancel()` was called (only on `TimeoutError`). -/
def askDaemonWithTimeout (timeout duration : Nat) (res : Except String α) :
    Except Failure α × Bool :=
  match futureResult timeout duration res with
  | .error .timeout => (.error .timeout, true)
  | out => (out, false)

/-- `ask_daemon_with_timeout` end to end: fetch the per-window daemon and
pool, submit the request to the pool (its run takes `duration` time
units), and wait with the timeout. -/
def askDaemonWithTimeoutFull (eo : EnvOracle) (b : Backends) (v : View)
    (ask_type : String) (ask_kwargs : Option (List (String × String)))
    (location : Option Nat) (timeout duration : Nat) (s : ModState) :
    (Except Failure Answer × Bool) × ModState :=
  let g := getDaemon eo v.windowId v.settings s
  let q := getRequestor v.windowId g.2.2
  let data := prepareRequestData v location
  let res := g.1.request b ask_type (ask_kwargs.getD [])
    data.1 data.2.1 data.2.2.1 data.2.2.2
  (askDaemonWithTimeout timeout duration (Except.ok res.1), q.2.2)

/-- A sublime window as seen by `run_in_active_view`: its id and the id of
its currently active view. -/
structure Window where
  wid : Nat
  activeView : Nat
deriving Repr, DecidableEq

/-- `run_in_active_view(window_id)` applied to the list of windows open at
delivery time: the active view of the first window with a matching id, or
`none` (the wrapped function is not called and an info message is logged). -/
def runInActiveView (window_id : Nat) (windows : List Window) : Option Nat :=
  (windows.find? (fun w => w.wid == window_id)).map Window.activeView

/-- What one `ask_daemon` call observably does: whether `_async_summon` was
scheduled on the async queue, the callback invocation it performed
(active-view id paired with the answer), and whether the
no-such-window info message was logged. -/
structure AsyncOutcome where
  scheduled : Bool
  delivered : Option (Nat × Answer)
  droppedLogged : Bool
deriving Repr, DecidableEq

/-- `ask_daemon(view, callback, ask_type, ask_kwargs, location)`:
the window id is captured up front; when the callback is truthy,
`_async_summon` is scheduled, runs `ask_daemon_sync`, and delivers the
answer via `run_in_active_view` against the windows open at delivery
time (`windowsAtDelivery`).  A falsy callback schedules nothing. -/
def askDaemon (eo : EnvOracle) (b : Backends) (v : View)
    (hasCallback : Bool) (ask_type : String)
    (ask_kwargs : Option (List (String × String))) (location : Option Nat)
    (windowsAtDelivery : List Window) (s : ModState) :
    AsyncOutcome × ModState :=
  let window_id := v.windowId
  if hasCallback then
    let res := askDaemonSync eo b v ask_type ask_kwargs location s
    match runInActiveView window_id windowsAtDelivery with
    | some av =>
      ({ scheduled := true, delivered := some (av, res.1.1),
         droppedLogged := false }, res.2)
    | none =>
      ({ scheduled := true, delivered := none, droppedLogged := true }, res.2)
  else
    ({ scheduled := false, delivered := none, droppedLogged := false }, s)

/-! ### Concrete fixtures used by witnesses and counterexamples -/

/-- A backends oracle whose definition-finder succeeds with a result. -/
def okBackends : Backends :=
  { dirname := fun _ => "/proj"
    hasInitFile := fun _ => false
    pydefGoto := fun _ _ _ _ _ => Except.ok (some ⟨"found.py", 4⟩)
    facadeGet := fun _ _ _ => Answer.facadeValue true 7 }

/-- A backends oracle whose definition-finder raises. -/
def errBackends : Backends :=
  { okBackends with pydefGoto := fun _ _ _ _ _ => Except.error "boom" }

/-- A backends oracle whose definition-finder returns a falsy result. -/
def noneBackends : Backends :=
  { okBackends with pydefGoto := fun _ _ _ _ _ => Except.ok none }

/-- A daemon with the pydef feature configured (all flags off). -/
def pydefDaemon : Daemon :=
  { envTag := 0, sys_path := ["/sp"], complete_funcargs := "all"
    pydef := some ⟨false, false, false⟩ }

/-- A daemon without the pydef feature. -/
def plainDaemon : Daemon := { pydefDaemon with pydef := none }

/-! ### Helper lemmas about `Daemon.request` -/

/-- `Daemon.request` assigns no attribute of `self`: the daemon it leaves
behind is the one it was called on. -/
theorem request_daemon_eq (d : Daemon) (b : Backends) (rt : String)
    (kw : List (String × String)) (fn src : String) (line col : Int) :
    (d.request b rt kw fn src line col).2.2 = d := by
  rcases hp : d.pydef with _ | p
  · simp [Daemon.request, hp]
  · simp only [Daemon.request, hp]
    split
    · rcases b.pydefGoto (d.requestPath b fn) fn line col src with e | (_ | r) <;>
        simp [Answer.isTruthy] <;> split <;> simp
    · simp

/-- Every `JediFacade` call recorded by `Daemon.request` carries exactly the
constructor arguments built in the method body: the daemon's environment
and `complete_funcargs`, the request's source and filename, `line + 1`,
the unchanged column, the request-local search path, and the request's
type and kwargs. -/
theorem request_facade_args (d : Daemon) (b : Backends) (rt : String)
    (kw : List (String × String)) (fn src : String) (line col : Int)
    (args : FacadeArgs) (rt₂ : String) (kw₂ : List (String × String))
    (h : Event.facadeCall args rt₂ kw₂ ∈ (d.request b rt kw fn src line col).2.1) :
    args = { envTag := d.envTag, complete_funcargs := d.complete_funcargs
             source := src, line := line + 1, column := col, filename := fn
             sys_path := d.requestPath b fn } ∧ rt₂ = rt ∧ kw₂ = kw := by
  rcases hp : d.pydef with _ | p
  · simp [Daemon.request, hp] at h
    exact ⟨h.1, h.2.1, h.2.2⟩
  · by_cases hb : (rt == "goto" || rt == "pydef_goto") = true
    · rcases hres : b.pydefGoto (d.requestPath b fn) fn line col src with e | _ | r
      · simp only [Daemon.request, hp, hb, hres, if_true] at h
        split at h
        · simp at h
        · simp [Answer.isTruthy] at h
          exact ⟨h.1, h.2.1, h.2.2⟩
      · simp only [Daemon.request, hp, hb, hres, if_true] at h
        split at h
        · simp at h
        · simp [Answer.isTruthy] at h
          exact ⟨h.1, h.2.1, h.2.2⟩
      · simp only [Daemon.request, hp, hb, hres, if_true] at h
        split at h
        · simp at h
        · simp [Answer.isTruthy] at h
    · simp [Daemon.request, hp, hb] at h
      exact ⟨h.1, h.2.1, h.2.2⟩

/-- Every `pydef.goto_definition` call recorded by `Daemon.request` carries
the request-local search path and the unmodified request parameters. -/
theorem request_pydef_args (d : Daemon) (b : Backends) (rt : String)
    (kw : List (String × String)) (fn src : String) (line col : Int)
    (path : List String) (fn₂ : String) (r₂ c₂ : Int) (s₂ : String)
    (h : Event.pydefCall path fn₂ r₂ c₂ s₂ ∈ (d.request b rt kw fn src line col).2.1) :
    path = d.requestPath b fn ∧ fn₂ = fn ∧ r₂ = line ∧ c₂ = col ∧ s₂ = src := by
  rcases hp : d.pydef with _ | p
  · simp [Daemon.request, hp] at h
  · by_cases hb : (rt == "goto" || rt == "pydef_goto") = true
    · rcases hres : b.pydefGoto (d.requestPath b fn) fn line col src with e | _ | r
      · simp only [Daemon.request, hp, hb, hres, if_true] at h
        split at h
        · simp at h
          exact ⟨h.1, h.2.1, h.2.2.1, h.2.2.2⟩
        · simp [Answer.isTruthy] at h
          exact ⟨h.1, h.2.1, h.2.2.1, h.2.2.2⟩
      · simp only [Daemon.request, hp, hb, hres, if_true] at h
        split at h
        · simp at h
          exact ⟨h.1, h.2.1, h.2.2.1, h.2.2.2⟩
        · simp [Answer.isTruthy] at h
          exact ⟨h.1, h.2.1, h.2.2.1, h.2.2.2⟩
      · simp only [Daemon.request, hp, hb, hres, if_true] at h
        split at h
        · simp at h
          exact ⟨h.1, h.2.1, h.2.2.1, h.2.2.2⟩
        · simp [Answer.isTruthy] at h
          exact ⟨h.1, h.2.1, h.2.2.1, h.2.2.2⟩
    · simp [Daemon.request, hp, hb] at h

/-! ### Claim theorems -/

/-- **C1.** `Daemon.request` forwards every request to the correct backend:
`pydef.goto_definition` is consulted iff the request type is `goto` or
`pydef_goto` and the pydef configuration is set; in every other case the
trace is exactly one `JediFacade` call. -/
theorem C1_backend_routing (d : Daemon) (b : Backends) (rt : String)
    (kw : List (String × String)) (fn src : String) (line col : Int) :
    ((∃ path fn₂ r c s₂,
        Event.pydefCall path fn₂ r c s₂ ∈ (d.request b rt kw fn src line col).2.1) ↔
      ((rt = "goto" ∨ rt = "pydef_goto") ∧ d.pydef.isSome = true)) ∧
    (¬((rt = "goto" ∨ rt = "pydef_goto") ∧ d.pydef.isSome = true) →
      ∃ args, (d.request b rt kw fn src line col).2.1 =
        [Event.facadeCall args rt kw]) := by
  rcases hp : d.pydef with _ | p
  · simp [Daemon.request, hp]
  · by_cases hb : (rt == "goto" || rt == "pydef_goto") = true
    · have hrt : rt = "goto" ∨ rt = "pydef_goto" := by
        simpa using hb
      rcases hres : b.pydefGoto (d.requestPath b fn) fn line col src with e | r
      · simp only [Daemon.request, hp, hb, hres, if_true]
        constructor
        · simp [hrt, Answer.isTruthy]
          split <;> simp
        · intro hcon
          exact absurd ⟨hrt, by simp [hp]⟩ hcon
      · rcases r with _ | r
        · simp only [Daemon.request, hp, hb, hres, if_true]
          constructor
          · simp [hrt]
            split <;> simp [Answer.isTruthy]
          · intro hcon
            exact absurd ⟨hrt, by simp [hp]⟩ hcon
        · simp only [Daemon.request, hp, hb, hres, if_true]
          constructor
          · simp [hrt]
            split <;> simp [Answer.isTruthy]
          · intro hcon
            exact absurd ⟨hrt, by simp [hp]⟩ hcon
    · have hrt : ¬(rt = "goto" ∨ rt = "pydef_goto") := by
        simpa using hb
      simp [Daemon.request, hp, hb, hrt]

/-- Witness for C1: a `completions` request on a pydef-configured daemon
(the routing condition fails) produces exactly one facade call. -/
theorem C1_backend_routing_witness :
    ∃ args, (pydefDaemon.request okBackends "completions" [] "f.py" "src" 2 5).2.1 =
      [Event.facadeCall args "completions" []] :=
  (C1_backend_routing pydefDaemon okBackends "completions" [] "f.py" "src" 2 5).2
    (by decide)

/-- **C2, counterexample.** On a `pydef_goto` request whose pydef call
raises, `Daemon.request` returns `None` without ever consulting the
primary engine: the trace is exactly the pydef call and the printed
traceback, with no facade call, so the exception does not "fall through
to the primary analysis engine". -/
theorem C2_no_fallthrough_counterexample :
    (pydefDaemon.request errBackends "pydef_goto" [] "f.py" "src" 2 5).1 =
      Answer.pyNone ∧
    (pydefDaemon.request errBackends "pydef_goto" [] "f.py" "src" 2 5).2.1 =
      [Event.pydefCall ["/sp"] "f.py" 2 5 "src", Event.excPrinted] := by
  constructor <;> rfl

/-- **C2, amended.** When the request is routed to the definition-finder
and the finder raises, the exception is caught and the traceback printed,
and the answer is treated as `None`; then, *unless* `skip_jedi` is set or
the request type is `pydef_goto` (in which case `None` is returned and the
primary engine is never consulted), the request falls through to
`JediFacade`, which produces the returned answer. -/
theorem C2_pydef_exception_amended (d : Daemon) (p : PydefConf) (b : Backends)
    (rt : String) (kw : List (String × String)) (fn src : String)
    (line col : Int) (e : String)
    (hp : d.pydef = some p) (hrt : rt = "goto" ∨ rt = "pydef_goto")
    (hres : b.pydefGoto (d.requestPath b fn) fn line col src = Except.error e) :
    Event.excPrinted ∈ (d.request b rt kw fn src line col).2.1 ∧
    (¬(p.skip_jedi = true ∨ rt = "pydef_goto") →
      ∃ args,
        (d.request b rt kw fn src line col).2.1 =
          [Event.pydefCall (d.requestPath b fn) fn line col src,
           Event.excPrinted, Event.facadeCall args rt kw] ∧
        (d.request b rt kw fn src line col).1 = b.facadeGet args rt kw) ∧
    ((p.skip_jedi = true ∨ rt = "pydef_goto") →
      (d.request b rt kw fn src line col).1 = Answer.pyNone ∧
      (d.request b rt kw fn src line col).2.1 =
        [Event.pydefCall (d.requestPath b fn) fn line col src,
         Event.excPrinted]) := by
  have hb : (rt == "goto" || rt == "pydef_goto") = true := by
    rcases hrt with h | h <;> simp [h]
  simp only [Daemon.request, hp, hb, hres, if_true]
  by_cases hsk : (p.skip_jedi || rt == "pydef_goto") = true
  · have hsk₂ : p.skip_jedi = true ∨ rt = "pydef_goto" := by simpa using hsk
    simp only [hsk, if_true]
    refine ⟨by simp, fun hcon => absurd hsk₂ hcon, fun _ => ⟨?_, ?_⟩⟩ <;> trivial
  · have hsk₂ : ¬(p.skip_jedi = true ∨ rt = "pydef_goto") := by
      simpa using hsk
    simp only [hsk, Bool.false_eq_true, if_false, Answer.isTruthy,
      Bool.not_false, if_true]
    exact ⟨by simp, fun _ => ⟨_, rfl, rfl⟩, fun hcon => absurd hcon hsk₂⟩

/-- Witness for the amended C2: a `goto` request on a daemon without
`skip_jedi`, whose pydef call raises, prints the traceback and returns the
facade's answer after a facade call. -/
theorem C2_pydef_exception_amended_witness :
    Event.excPrinted ∈
      (pydefDaemon.request errBackends "goto" [] "f.py" "src" 2 5).2.1 ∧
    (pydefDaemon.request errBackends "goto" [] "f.py" "src" 2 5).1 =
      Answer.facadeValue true 7 := by
  refine ⟨(C2_pydef_exception_amended pydefDaemon ⟨false, false, false⟩
    errBackends "goto" [] "f.py" "src" 2 5 "boom" rfl (Or.inl rfl) rfl).1, rfl⟩

/-- **C7.** Whenever `Daemon.request` invokes the primary engine, the
returned answer is exactly `facade.get(request_type, request_kwargs)` on
the facade it constructed — a pass-through with no transformation. -/
theorem C7_facade_passthrough (d : Daemon) (b : Backends) (rt : String)
    (kw : List (String × String)) (fn src : String) (line col : Int)
    (args : FacadeArgs) (rt₂ : String) (kw₂ : List (String × String))
    (h : Event.facadeCall args rt₂ kw₂ ∈ (d.request b rt kw fn src line col).2.1) :
    (d.request b rt kw fn src line col).1 = b.facadeGet args rt₂ kw₂ := by
  rcases hp : d.pydef with _ | p
  · simp [Daemon.request, hp] at h ⊢
    obtain ⟨rfl, rfl, rfl⟩ := h
    rfl
  · by_cases hb : (rt == "goto" || rt == "pydef_goto") = true
    · rcases hres : b.pydefGoto (d.requestPath b fn) fn line col src with e | _ | r
      · simp only [Daemon.request, hp, hb, hres, if_true] at h ⊢
        split at h
        · simp at h
        · simp only [Answer.isTruthy, Bool.not_false, if_true] at h ⊢
          simp at h
          obtain ⟨rfl, rfl, rfl⟩ := h
          split
          · simp_all
          · rfl
      · simp only [Daemon.request, hp, hb, hres, if_true] at h ⊢
        split at h
        · simp at h
        · simp only [Answer.isTruthy, Bool.not_false, if_true] at h ⊢
          simp at h
          obtain ⟨rfl, rfl, rfl⟩ := h
          split
          · simp_all
          · rfl
      · simp only [Daemon.request, hp, hb, hres, if_true] at h
        split at h
        · simp at h
        · simp [Answer.isTruthy] at h
    · simp [Daemon.request, hp, hb] at h ⊢
      obtain ⟨rfl, rfl, rfl⟩ := h
      rfl

/-- Witness for C7: on a `completions` request the answer equals the
facade's value on the recorded arguments. -/
theorem C7_facade_passthrough_witness :
    (pydefDaemon.request okBackends "completions" [] "f.py" "src" 2 5).1 =
      okBackends.facadeGet
        { envTag := 0, complete_funcargs := "all", source := "src", line := 3
          column := 5, filename := "f.py", sys_path := ["/sp"] }
        "completions" [] :=
  C7_facade_passthrough pydefDaemon okBackends "completions" [] "f.py" "src" 2 5
    _ _ _ (by simp [Daemon.request, Daemon.requestPath, pydefDaemon, okBackends])

/-- **C10.** A truthy pydef result makes the answer the single-element
list `[(result.filename, result.row + 1, 0)]` (0-based row made 1-based,
column fixed at 0); and every facade invocation receives the 1-based line
`line + 1` with the column unchanged. -/
theorem C10_pydef_answer_and_facade_position (d : Daemon) (p : PydefConf)
    (b : Backends) (rt : String) (kw : List (String × String))
    (fn src : String) (line col : Int) (r : GotoResult)
    (hp : d.pydef = some p) (hrt : rt = "goto" ∨ rt = "pydef_goto")
    (hres : b.pydefGoto (d.requestPath b fn) fn line col src =
      Except.ok (some r)) :
    (d.request b rt kw fn src line col).1 =
      Answer.gotoList [(r.filename, r.row + 1, 0)] ∧
    (∀ (d₂ : Daemon) (b₂ : Backends) (rt₂ : String)
        (kw₂ : List (String × String)) (fn₂ src₂ : String) (l₂ c₂ : Int)
        (args : FacadeArgs) (rt₃ : String) (kw₃ : List (String × String)),
      Event.facadeCall args rt₃ kw₃ ∈
          (d₂.request b₂ rt₂ kw₂ fn₂ src₂ l₂ c₂).2.1 →
      args.line = l₂ + 1 ∧ args.column = c₂) := by
  constructor
  · have hb : (rt == "goto" || rt == "pydef_goto") = true := by
      rcases hrt with h | h <;> simp [h]
    simp only [Daemon.request, hp, hb, hres, if_true]
    split
    · rfl
    · simp [Answer.isTruthy]
  · intro d₂ b₂ rt₂ kw₂ fn₂ src₂ l₂ c₂ args rt₃ kw₃ h
    have := request_facade_args d₂ b₂ rt₂ kw₂ fn₂ src₂ l₂ c₂ args rt₃ kw₃ h
    rw [this.1]
    exact ⟨rfl, rfl⟩

/-- Witness for C10: a successful `goto` request through pydef yields
`[("found.py", 5, 0)]` from the 0-based row 4. -/
theorem C10_pydef_answer_and_facade_position_witness :
    (pydefDaemon.request okBackends "goto" [] "f.py" "src" 2 5).1 =
      Answer.gotoList [("found.py", 5, 0)] :=
  (C10_pydef_answer_and_facade_position pydefDaemon ⟨false, false, false⟩
    okBackends "goto" [] "f.py" "src" 2 5 ⟨"found.py", 4⟩ rfl (Or.inl rfl)
    rfl).1

/-- A daemon with the pydef `auto_path` option set. -/
def autoDaemon : Daemon :=
  { pydefDaemon with pydef := some ⟨false, true, false⟩ }

/-- **C9.** With `auto_path` set, no `__init__.py` in the file's directory
and the directory not already on the path, the search path used for the
request is the directory prepended to the daemon's `sys_path`; the path
seen by both backends is that request-local path, and no call to
`Daemon.request` ever mutates the daemon (in particular its stored
`sys_path`). -/
theorem C9_auto_path_request_local (d : Daemon) (p : PydefConf) (b : Backends)
    (rt : String) (kw : List (String × String)) (fn src : String)
    (line col : Int)
    (hp : d.pydef = some p) (ha : p.auto_path = true)
    (h₁ : b.hasInitFile (b.dirname fn) = false)
    (h₂ : d.sys_path.contains (b.dirname fn) = false) :
    d.requestPath b fn = b.dirname fn :: d.sys_path ∧
    (∀ (path : List String) (fn₂ : String) (r₂ c₂ : Int) (s₂ : String),
      Event.pydefCall path fn₂ r₂ c₂ s₂ ∈
          (d.request b rt kw fn src line col).2.1 →
      path = b.dirname fn :: d.sys_path) ∧
    (∀ (args : FacadeArgs) (rt₃ : String) (kw₃ : List (String × String)),
      Event.facadeCall args rt₃ kw₃ ∈
          (d.request b rt kw fn src line col).2.1 →
      args.sys_path = b.dirname fn :: d.sys_path) ∧
    (∀ (d₂ : Daemon) (b₂ : Backends) (rt₂ : String)
        (kw₂ : List (String × String)) (fn₂ src₂ : String) (l₂ c₂ : Int),
      (d₂.request b₂ rt₂ kw₂ fn₂ src₂ l₂ c₂).2.2 = d₂) := by
  have hmem : b.dirname fn ∉ d.sys_path := by simpa using h₂
  have hpath : d.requestPath b fn = b.dirname fn :: d.sys_path := by
    simp [Daemon.requestPath, hp, ha, h₁, hmem]
  refine ⟨hpath, ?_, ?_, ?_⟩
  · intro path fn₂ r₂ c₂ s₂ h
    have := request_pydef_args d b rt kw fn src line col path fn₂ r₂ c₂ s₂ h
    rw [this.1, hpath]
  · intro args rt₃ kw₃ h
    have := request_facade_args d b rt kw fn src line col args rt₃ kw₃ h
    rw [this.1, hpath]
  · intro d₂ b₂ rt₂ kw₂ fn₂ src₂ l₂ c₂
    exact request_daemon_eq d₂ b₂ rt₂ kw₂ fn₂ src₂ l₂ c₂

/-- Witness for C9: on the concrete `autoDaemon`, the request-local path
is `"/proj"` prepended to the stored `["/sp"]`. -/
theorem C9_auto_path_request_local_witness :
    autoDaemon.requestPath okBackends "f.py" = ["/proj", "/sp"] :=
  (C9_auto_path_request_local autoDaemon ⟨false, true, false⟩ okBackends
    "goto" [] "f.py" "src" 2 5 rfl rfl rfl rfl).1

/-- An environment oracle for witnesses: every environment's
`get_sys_path()` is `["/env"]`. -/
def witnessEnv : EnvOracle :=
  { createEnvironment := fun _ => 1
    interpreterEnvironment := fun _ => 2
    defaultEnvironment := 0
    sysPathOf := fun _ => ["/env"] }

/-- Settings for witnesses: defaults with the pydef feature off. -/
def witnessSettings : Settings :=
  { python_virtualenv := none, python_interpreter := none
    extra_packages := [], complete_funcargs := "all", pydef := none }

/-- A second, different settings value, to show later calls reuse the
first daemon whatever their settings. -/
def otherSettings : Settings :=
  { witnessSettings with complete_funcargs := "required" }

/-- The module state at import time: both dicts empty. -/
def emptyState : ModState := { daemons := [], requestors := [], nextRid := 0 }

/-- A view in window 9 for witnesses. -/
def witnessView : View :=
  { windowId := 9, file_name := some "f.py", source := "src", selBegin := 0
    rowcol := fun _ => (2, 5), settings := witnessSettings }

/-- A successful `List.lookup` finds a pair that is in the list. -/
theorem lookup_mem {α β : Type} [BEq α] [LawfulBEq α] {l : List (α × β)}
    {k : α} {v : β} (h : l.lookup k = some v) : (k, v) ∈ l := by
  induction l with
  | nil => simp [List.lookup] at h
  | cons p t ih =>
    rcases p with ⟨a, c⟩
    by_cases hk : (k == a) = true
    · simp [List.lookup, hk] at h
      simp [h, eq_of_beq hk]
    · simp only [Bool.not_eq_true] at hk
      simp [List.lookup, hk] at h
      exact List.mem_cons_of_mem _ (ih h)

/-- **C3.** `ask_daemon_with_timeout`: a request that outlives the timeout
has its future cancelled and raises `TimeoutError`, a failure distinct
from any other; a request completing in time returns its result
unchanged — both for the `try/except` tail and for the full pipeline. -/
theorem C3_timeout_cancel_and_propagate (timeout duration : Nat)
    (res : Except String Answer) :
    (timeout < duration →
      askDaemonWithTimeout timeout duration res =
        (Except.error Failure.timeout, true)) ∧
    (∀ a : Answer, duration ≤ timeout → res = Except.ok a →
      askDaemonWithTimeout timeout duration res = (Except.ok a, false)) ∧
    (∀ m : String, Failure.timeout ≠ Failure.other m) ∧
    (∀ (eo : EnvOracle) (b : Backends) (v : View) (ask_type : String)
        (kw : Option (List (String × String))) (loc : Option Nat)
        (s : ModState), duration ≤ timeout →
      (askDaemonWithTimeoutFull eo b v ask_type kw loc timeout duration s).1 =
        (Except.ok (askDaemonSync eo b v ask_type kw loc s).1.1, false)) := by
  refine ⟨?_, ?_, ?_, ?_⟩
  · intro hlt
    have hgt : ¬(duration ≤ timeout) := not_le.2 hlt
    simp [askDaemonWithTimeout, futureResult, hgt]
  · intro a hle hres
    subst hres
    simp [askDaemonWithTimeout, futureResult, hle]
  · intro m h
    exact Failure.noConfusion h
  · intro eo b v ask_type kw loc s hle
    simp [askDaemonWithTimeoutFull, askDaemonWithTimeout, futureResult, hle,
      askDaemonSync]

/-- Witness for C3: with a 3-unit timeout, a 5-unit request times out with
its future cancelled, and a 2-unit request returns its answer unchanged. -/
theorem C3_timeout_cancel_and_propagate_witness :
    askDaemonWithTimeout 3 5 (Except.ok Answer.pyNone) =
      (Except.error Failure.timeout, true) ∧
    askDaemonWithTimeout 3 2 (Except.ok (Answer.facadeValue true 7)) =
      (Except.ok (Answer.facadeValue true 7), false) :=
  ⟨(C3_timeout_cancel_and_propagate 3 5 (Except.ok Answer.pyNone)).1
      (by decide),
   (C3_timeout_cancel_and_propagate 3 2
      (Except.ok (Answer.facadeValue true 7))).2.1 _ (by decide) rfl⟩

/-- **C4.** An async `ask_daemon` result is delivered by calling the
callback on the active view of the first window whose id matches the
window id captured at request time; when no such window remains, the
callback is never invoked and the drop is logged. -/
theorem C4_async_result_marshaling (eo : EnvOracle) (b : Backends) (v : View)
    (ask_type : String) (kw : Option (List (String × String)))
    (loc : Option Nat) (windows : List Window) (s : ModState) :
    (∀ w : Window, windows.find? (fun w₂ => w₂.wid == v.windowId) = some w →
      (askDaemon eo b v true ask_type kw loc windows s).1 =
        { scheduled := true
          delivered := some (w.activeView,
            (askDaemonSync eo b v ask_type kw loc s).1.1)
          droppedLogged := false }) ∧
    (windows.find? (fun w₂ => w₂.wid == v.windowId) = none →
      (askDaemon eo b v true ask_type kw loc windows s).1 =
        { scheduled := true, delivered := none, droppedLogged := true }) := by
  constructor
  · intro w hw
    simp [askDaemon, runInActiveView, hw]
  · intro hw
    simp [askDaemon, runInActiveView, hw]

/-- Witness for C4: with one matching window the answer lands on its
active view; with no matching window it is dropped and logged. -/
theorem C4_async_result_marshaling_witness :
    (askDaemon witnessEnv okBackends witnessView true "goto" none none
        [⟨3, 44⟩, ⟨9, 55⟩] emptyState).1 =
      { scheduled := true
        delivered := some (55,
          (askDaemonSync witnessEnv okBackends witnessView "goto" none none
            emptyState).1.1)
        droppedLogged := false } ∧
    (askDaemon witnessEnv okBackends witnessView true "goto" none none
        [⟨3, 44⟩] emptyState).1 =
      { scheduled := true, delivered := none, droppedLogged := true } :=
  ⟨(C4_async_result_marshaling witnessEnv okBackends witnessView "goto" none
      none [⟨3, 44⟩, ⟨9, 55⟩] emptyState).1 ⟨9, 55⟩ (by decide),
   (C4_async_result_marshaling witnessEnv okBackends witnessView "goto" none
      none [⟨3, 44⟩] emptyState).2 (by decide)⟩

/-- **C5.** `_get_requestor` keeps exactly one `max_workers=1` pool per
window: a first call for an unknown window constructs one, the repeated
call returns the very same pool without touching the state, calls for
other windows leave the entry alone, and every stored pool has one
worker. -/
theorem C5_one_pool_per_window (wid : Nat) (s : ModState)
    (hwf : ∀ pr ∈ s.requestors, (Prod.snd pr).max_workers = 1) :
    (getRequestor wid s).1.max_workers = 1 ∧
    (s.requestors.lookup wid = none → (getRequestor wid s).2.1 = true) ∧
    (getRequestor wid ((getRequestor wid s).2.2)).1 = (getRequestor wid s).1 ∧
    (getRequestor wid ((getRequestor wid s).2.2)).2.1 = false ∧
    (getRequestor wid ((getRequestor wid s).2.2)).2.2 =
      (getRequestor wid s).2.2 ∧
    (∀ wid₂, wid₂ ≠ wid →
      ((getRequestor wid₂ ((getRequestor wid s).2.2)).2.2).requestors.lookup
          wid =
        ((getRequestor wid s).2.2).requestors.lookup wid) ∧
    (∀ pr ∈ ((getRequestor wid s).2.2).requestors,
      (Prod.snd pr).max_workers = 1) := by
  rcases hl : s.requestors.lookup wid with _ | r
  · refine ⟨?_, fun _ => ?_, ?_, ?_, ?_, ?_, ?_⟩
    · simp [getRequestor, hl]
    · simp [getRequestor, hl]
    · simp [getRequestor, hl, List.lookup]
    · simp [getRequestor, hl, List.lookup]
    · simp [getRequestor, hl, List.lookup]
    · intro wid₂ hne
      have hb : (wid == wid₂) = false := by simpa using hne.symm
      simp only [getRequestor, hl]
      rcases hl₂ : (((wid, ({ rid := s.nextRid, max_workers := 1 } :
          Requestor)) :: s.requestors) : List (Nat × Requestor)).lookup wid₂
        with _ | r₂
      · simp [hl₂, List.lookup, hb]
      · simp [hl₂]
    · intro pr hpr
      simp only [getRequestor, hl] at hpr
      rcases List.mem_cons.1 hpr with h | h
      · simp [h]
      · exact hwf pr h
  · have hmw : r.max_workers = 1 := hwf (wid, r) (lookup_mem hl)
    refine ⟨?_, ?_, ?_, ?_, ?_, ?_, ?_⟩
    · simp [getRequestor, hl, hmw]
    · intro hc
      simp [hl] at hc
    · simp [getRequestor, hl]
    · simp [getRequestor, hl]
    · simp [getRequestor, hl]
    · intro wid₂ hne
      have hb : (wid == wid₂) = false := by simpa using hne.symm
      simp only [getRequestor, hl]
      rcases hl₂ : s.requestors.lookup wid₂ with _ | r₂
      · simp [hl₂, List.lookup, hb, hl]
      · simp [hl₂, hl]
    · intro pr hpr
      simp only [getRequestor, hl] at hpr
      exact hwf pr hpr

/-- Witness for C5: starting from the empty state, window 3 gets a fresh
one-worker pool and the repeated call reuses it unchanged. -/
theorem C5_one_pool_per_window_witness :
    (getRequestor 3 emptyState).1.max_workers = 1 ∧
    (getRequestor 3 emptyState).2.1 = true ∧
    (getRequestor 3 ((getRequestor 3 emptyState).2.2)).1 =
      (getRequestor 3 emptyState).1 ∧
    (getRequestor 3 ((getRequestor 3 emptyState).2.2)).2.1 = false := by
  have h := C5_one_pool_per_window 3 emptyState (by intro pr hpr; simp [emptyState] at hpr)
  exact ⟨h.1, h.2.1 (by decide), h.2.2.1, h.2.2.2.1⟩

/-- **C6.** `_get_daemon` lazily constructs one `Daemon` per window: the
first call for an unknown window constructs it from that view's settings,
any later call — even with different settings — returns the same daemon
without constructing a second one or touching the state, and calls for
other windows leave the entry alone. -/
theorem C6_daemon_lazy_per_window (eo : EnvOracle) (wid : Nat)
    (st₁ st₂ : Settings) (s : ModState) :
    (s.daemons.lookup wid = none →
      (getDaemon eo wid st₁ s).2.1 = true ∧
      (getDaemon eo wid st₁ s).1 = Daemon.init eo st₁) ∧
    (∀ d₀ : Daemon, s.daemons.lookup wid = some d₀ →
      (getDaemon eo wid st₁ s).2.1 = false ∧
      (getDaemon eo wid st₁ s).1 = d₀ ∧ (getDaemon eo wid st₁ s).2.2 = s) ∧
    ((getDaemon eo wid st₂ ((getDaemon eo wid st₁ s).2.2)).1 =
      (getDaemon eo wid st₁ s).1 ∧
     (getDaemon eo wid st₂ ((getDaemon eo wid st₁ s).2.2)).2.1 = false ∧
     (getDaemon eo wid st₂ ((getDaemon eo wid st₁ s).2.2)).2.2 =
      (getDaemon eo wid st₁ s).2.2) ∧
    (∀ (wid₂ : Nat) (st₃ : Settings), wid₂ ≠ wid →
      ((getDaemon eo wid₂ st₃ ((getDaemon eo wid st₁ s).2.2)).2.2).daemons.lookup
          wid =
        ((getDaemon eo wid st₁ s).2.2).daemons.lookup wid) := by
  rcases hl : s.daemons.lookup wid with _ | d₀
  · refine ⟨fun _ => ⟨?_, ?_⟩, ?_, ⟨?_, ?_, ?_⟩, ?_⟩
    · simp [getDaemon, hl]
    · simp [getDaemon, hl]
    · intro d₀ hc
      simp [hl] at hc
    · simp [getDaemon, hl, List.lookup]
    · simp [getDaemon, hl, List.lookup]
    · simp [getDaemon, hl, List.lookup]
    · intro wid₂ st₃ hne
      have hb : (wid == wid₂) = false := by simpa using hne.symm
      simp only [getDaemon, hl]
      rcases hl₂ : (((wid, Daemon.init eo st₁) :: s.daemons) :
          List (Nat × Daemon)).lookup wid₂ with _ | d₂
      · simp [hl₂, List.lookup, hb]
      · simp [hl₂]
  · refine ⟨fun hc => ?_, fun d₁ hc => ?_, ⟨?_, ?_, ?_⟩, ?_⟩
    · simp [hl] at hc
    · obtain rfl : d₀ = d₁ := by injection hc
      exact ⟨by simp [getDaemon, hl], by simp [getDaemon, hl],
        by simp [getDaemon, hl]⟩
    · simp [getDaemon, hl]
    · simp [getDaemon, hl]
    · simp [getDaemon, hl]
    · intro wid₂ st₃ hne
      have hb : (wid == wid₂) = false := by simpa using hne.symm
      simp only [getDaemon, hl]
      rcases hl₂ : s.daemons.lookup wid₂ with _ | d₂
      · simp [hl₂, List.lookup, hb, hl]
      · simp [hl₂, hl]

/-- Witness for C6: window 3 starting from the empty state: first call
constructs, second call (even with other settings) reuses it with no
construction and no state change. -/
theorem C6_daemon_lazy_per_window_witness :
    ((getDaemon witnessEnv 3 witnessSettings emptyState).2.1 = true ∧
      (getDaemon witnessEnv 3 witnessSettings emptyState).1 =
        Daemon.init witnessEnv witnessSettings) ∧
    (getDaemon witnessEnv 3 otherSettings
        ((getDaemon witnessEnv 3 witnessSettings emptyState).2.2)).1 =
      (getDaemon witnessEnv 3 witnessSettings emptyState).1 ∧
    (getDaemon witnessEnv 3 otherSettings
        ((getDaemon witnessEnv 3 witnessSettings emptyState).2.2)).2.1 =
      false := by
  have h := C6_daemon_lazy_per_window witnessEnv 3 witnessSettings
    otherSettings emptyState
  exact ⟨h.1 (by decide), h.2.2.1.1, h.2.2.1.2.1⟩

/-- **C8.** `ask_daemon` with a falsy callback does nothing: nothing is
scheduled, no request is made, nothing is delivered or logged, and the
module state is returned untouched. -/
theorem C8_falsy_callback_noop (eo : EnvOracle) (b : Backends) (v : View)
    (ask_type : String) (kw : Option (List (String × String)))
    (loc : Option Nat) (windows : List Window) (s : ModState) :
    askDaemon eo b v false ask_type kw loc windows s =
      ({ scheduled := false, delivered := none, droppedLogged := false }, s) :=
  rfl

end SublimeJedi
